import Mathlib

/-!
Verification of the Social Security benefit calculation and projection engine.

The numeric type of the source (JavaScript `number`) is embedded as `ℚ`;
dates are embedded by their calendar year, the only component the
modelled functions inspect. Fallible functions (those that `throw`)
return `Option`.
-/

/-- Full Retirement Age in years and months (type FRA of the source). -/
structure FRA where
  years : ℤ
  months : ℤ
  deriving DecidableEq, Repr

/-- Early retirement reduction rate for the first 36 months before FRA:
5/9 of 1% per month. -/
def EARLY_REDUCTION_RATE_36 : ℚ := (5 / 9) / 100

/-- Early retirement reduction rate beyond 36 months: 5/12 of 1% per month. -/
def EARLY_REDUCTION_RATE_BEYOND : ℚ := (5 / 12) / 100

/-- Delayed retirement credit rate: 2/3 of 1% per month. -/
def DELAYED_CREDIT_RATE : ℚ := (2 / 3) / 100

/-- Spousal benefit rate: 50% of the primary earner's PIA. -/
def SPOUSAL_BENEFIT_RATE : ℚ := 1 / 2

/-- Minimum claiming age (62). -/
def MIN_CLAIMING_AGE : ℚ := 62

/-- Maximum claiming age (70). -/
def MAX_CLAIMING_AGE : ℚ := 70

/-- The FRA_TABLE of the source: full retirement age by birth year, for
birth years 1943 through 1960; `none` outside the table. -/
def FRA_TABLE (birthYear : ℤ) : Option FRA :=
  if 1943 ≤ birthYear ∧ birthYear ≤ 1954 then some ⟨66, 0⟩
  else if birthYear = 1955 then some ⟨66, 2⟩
  else if birthYear = 1956 then some ⟨66, 4⟩
  else if birthYear = 1957 then some ⟨66, 6⟩
  else if birthYear = 1958 then some ⟨66, 8⟩
  else if birthYear = 1959 then some ⟨66, 10⟩
  else if birthYear = 1960 then some ⟨67, 0⟩
  else none

/-- calculateFRA from the source: birth year 1960 or later gives FRA 67,
before 1943 gives 66, otherwise the table lookup with default 67. -/
def calculateFRA (birthYear : ℤ) : FRA :=
  if birthYear ≥ 1960 then ⟨67, 0⟩
  else if birthYear < 1943 then ⟨66, 0⟩
  else (FRA_TABLE birthYear).getD ⟨67, 0⟩

/-- fraToMonths from the source: FRA converted to total months. -/
def fraToMonths (fra : FRA) : ℚ :=
  fra.years * 12 + fra.months

/-- calculateEarlyReductionPercentage from the source: reduction fraction
(returned negative) for claiming before FRA. -/
def calculateEarlyReductionPercentage (claimingAge : ℚ) (fra : FRA) : ℚ :=
  let claimingMonths := claimingAge * 12
  let fraMonths := fraToMonths fra
  let monthsBeforeFRA := fraMonths - claimingMonths
  if monthsBeforeFRA ≤ 0 then 0
  else if monthsBeforeFRA ≤ 36 then
    -(monthsBeforeFRA * EARLY_REDUCTION_RATE_36)
  else
    -(36 * EARLY_REDUCTION_RATE_36 +
      (monthsBeforeFRA - 36) * EARLY_REDUCTION_RATE_BEYOND)

/-- calculateDelayedCreditPercentage from the source: credit fraction
(returned positive) for claiming after FRA, capped at age 70. -/
def calculateDelayedCreditPercentage (claimingAge : ℚ) (fra : FRA) : ℚ :=
  let claimingMonths := claimingAge * 12
  let fraMonths := fraToMonths fra
  let monthsAfterFRA := claimingMonths - fraMonths
  if monthsAfterFRA ≤ 0 then 0
  else
    let maxMonths := (MAX_CLAIMING_AGE - fraMonths / 12) * 12
    let effectiveMonths := min monthsAfterFRA maxMonths
    effectiveMonths * DELAYED_CREDIT_RATE

/-- Result record of calculateBenefit (type BenefitCalculation of the source). -/
structure BenefitCalculation where
  monthlyBenefit : ℚ
  annualBenefit : ℚ
  adjustmentPercentage : ℚ
  fra : FRA
  deriving DecidableEq, Repr

/-- calculateBenefit from the source: validates the claiming age
(throw modelled as `none`), then applies the early reduction or the
delayed credit relative to FRA. -/
def calculateBenefit (baseAmount : ℚ) (birthYear : ℤ) (claimingAge : ℚ) :
    Option BenefitCalculation :=
  if claimingAge < MIN_CLAIMING_AGE ∨ claimingAge > MAX_CLAIMING_AGE then
    none
  else
    let fra := calculateFRA birthYear
    let fraAge : ℚ := fra.years + fra.months / 12
    if claimingAge < fraAge then
      let adjustmentPercentage := calculateEarlyReductionPercentage claimingAge fra
      let monthlyBenefit := baseAmount * (1 + adjustmentPercentage)
      some ⟨monthlyBenefit, monthlyBenefit * 12, adjustmentPercentage * 100, fra⟩
    else if claimingAge > fraAge then
      let adjustmentPercentage := calculateDelayedCreditPercentage claimingAge fra
      let monthlyBenefit := baseAmount * (1 + adjustmentPercentage)
      some ⟨monthlyBenefit, monthlyBenefit * 12, adjustmentPercentage * 100, fra⟩
    else
      some ⟨baseAmount, baseAmount * 12, 0, fra⟩

/-- Which benefit a spouse ends up drawing (the source's string field). -/
inductive BenefitSource where
  | own
  | spousal
  deriving DecidableEq, Repr

/-- Result record of calculateSpousalBenefit (type SpousalBenefitResult). -/
structure SpousalBenefitResult where
  monthlyBenefit : ℚ
  source : BenefitSource
  ownBenefit : ℚ
  spousalBenefit : ℚ
  deriving DecidableEq, Repr

/-- calculateSpousalBenefit from the source: the spouse receives the higher
of their own benefit and 50% of the partner's PIA, the latter reduced when
claiming before the spouse's FRA. -/
def calculateSpousalBenefit (ownBaseAmount partnerBaseAmount : ℚ)
    (spouseBirthYear : ℤ) (spouseClaimingAge : ℚ) :
    Option SpousalBenefitResult :=
  match calculateBenefit ownBaseAmount spouseBirthYear spouseClaimingAge with
  | none => none
  | some ownBenefitCalc =>
    let spousalBaseBenefit := partnerBaseAmount * SPOUSAL_BENEFIT_RATE
    let spouseFRA := calculateFRA spouseBirthYear
    let spouseFRAAge : ℚ := spouseFRA.years + spouseFRA.months / 12
    let spousalBenefit :=
      if spouseClaimingAge < spouseFRAAge then
        spousalBaseBenefit *
          (1 + calculateEarlyReductionPercentage spouseClaimingAge spouseFRA)
      else spousalBaseBenefit
    let monthlyBenefit := max ownBenefitCalc.monthlyBenefit spousalBenefit
    let source :=
      if ownBenefitCalc.monthlyBenefit ≥ spousalBenefit then BenefitSource.own
      else BenefitSource.spousal
    some ⟨monthlyBenefit, source, ownBenefitCalc.monthlyBenefit, spousalBenefit⟩

/-- One row of a year-by-year projection (type YearlyBenefit of the source).
Spouse and household fields are optional, absent unless a spouse merge
filled them. -/
structure YearlyBenefit where
  age : ℤ
  year : ℤ
  monthlyBenefit : ℚ
  annualBenefit : ℚ
  colaAdjusted : ℚ
  inflationAdjusted : ℚ
  spouseMonthlyBenefit : Option ℚ := none
  spouseAnnualBenefit : Option ℚ := none
  householdAnnualBenefit : Option ℚ := none
  deriving DecidableEq, Repr

/-- One row of running totals (type CumulativeBenefit of the source). -/
structure CumulativeBenefit where
  age : ℤ
  year : ℤ
  cumulative : ℚ
  cumulativeAdjusted : ℚ
  opportunityCost : Option ℚ := none
  netValue : Option ℚ := none
  householdCumulative : Option ℚ := none
  cumulativeWithInvestment : Option ℚ := none
  deriving DecidableEq, Repr

/-- projectBenefits from the source: one row per integer age from
ceil(claimingAge) up to endAge, compounding the nominal benefit by the
COLA rate and the today's-dollars benefit by the real growth rate
(COLA minus inflation). -/
def projectBenefits (startingBenefit claimingAge endAge colaRate : ℚ)
    (birthYear : ℤ) (inflationRate : ℚ := colaRate) : List YearlyBenefit :=
  (List.range (⌊endAge⌋ - ⌈claimingAge⌉ + 1).toNat).map (fun (k : ℕ) =>
    let age : ℤ := ⌈claimingAge⌉ + k
    let year : ℤ := birthYear + age
    let realGrowthRate := colaRate - inflationRate
    let monthlyBenefitTodaysDollars :=
      startingBenefit * (1 + realGrowthRate / 100) ^ k
    let nominalMonthlyBenefit := startingBenefit * (1 + colaRate / 100) ^ k
    { age := age
      year := year
      monthlyBenefit := nominalMonthlyBenefit
      annualBenefit := nominalMonthlyBenefit * 12
      colaAdjusted := nominalMonthlyBenefit
      inflationAdjusted := monthlyBenefitTodaysDollars })

/-- applyInflation from the source: discount colaAdjusted by compound
inflation from the base year, leaving every other field unchanged. -/
def applyInflation (benefits : List YearlyBenefit) (inflationRate : ℚ)
    (baseYear : ℤ) : List YearlyBenefit :=
  benefits.map (fun benefit =>
    let yearsFromBase : ℤ := benefit.year - baseYear
    let inflationFactor := (1 + inflationRate / 100) ^ yearsFromBase
    { benefit with inflationAdjusted := benefit.colaAdjusted / inflationFactor })

/-- Accumulation loop of calculateCumulativeBenefits: carries the nominal
and the inflation-adjusted running totals. -/
def cumulativeGo : List YearlyBenefit → ℚ → ℚ → List CumulativeBenefit
  | [], _, _ => []
  | benefit :: rest, runningTotal, runningAdjustedTotal =>
    let newTotal := runningTotal + benefit.annualBenefit
    let newAdjustedTotal := runningAdjustedTotal + benefit.inflationAdjusted * 12
    { age := benefit.age
      year := benefit.year
      cumulative := newTotal
      cumulativeAdjusted := newAdjustedTotal } ::
      cumulativeGo rest newTotal newAdjustedTotal

/-- calculateCumulativeBenefits from the source: running sums of annual
and of inflation-adjusted annual amounts, one output row per input row.
The useTodaysDollars flag is accepted, as in the source, and read nowhere. -/
def calculateCumulativeBenefits (benefits : List YearlyBenefit)
    (useTodaysDollars : Bool := true) : List CumulativeBenefit :=
  cumulativeGo benefits 0 0

/-- Per-age comparison value of findBreakevenAge: netValue when present,
otherwise cumulativeAdjusted. -/
def breakevenValue (benefit : CumulativeBenefit) : ℚ :=
  match benefit.netValue with
  | some v => v
  | none => benefit.cumulativeAdjusted

/-- Lookup of the row at a given age (the source's Array.find call). -/
def findAtAge (data : List CumulativeBenefit) (age : ℤ) :
    Option CumulativeBenefit :=
  data.find? (fun b => b.age == age)

/-- Age of the first row, 0 for an empty list (the source's
`scenario1Data[0]?.age || 0`). -/
def headAge (data : List CumulativeBenefit) : ℤ :=
  match data with
  | [] => 0
  | b :: _ => b.age

/-- Age of the last row, 100 for an empty list (the source's
`scenario1Data[scenario1Data.length - 1]?.age || 100`). -/
def lastAge (data : List CumulativeBenefit) : ℤ :=
  match data with
  | [] => 100
  | [b] => b.age
  | _ :: rest => lastAge rest

/-- Scanning loop of findBreakevenAge: iterates ages upward (the fuel is
the number of ages left in the range), skipping ages missing from either
series, and returns the interpolated crossover at the first strict sign
change of the running difference. -/
def breakevenLoop (s1 s2 : List CumulativeBenefit) (minAge : ℤ) :
    ℕ → ℤ → ℚ → Option ℚ
  | 0, _, _ => none
  | fuel + 1, age, previousDiff =>
    match findAtAge s1 age, findAtAge s2 age with
    | some benefit1, some benefit2 =>
      let diff := breakevenValue benefit1 - breakevenValue benefit2
      if age > minAge ∧ previousDiff * diff < 0 then
        some ((age : ℚ) - 1 + |previousDiff / (diff - previousDiff)|)
      else breakevenLoop s1 s2 minAge fuel (age + 1) diff
    | _, _ => breakevenLoop s1 s2 minAge fuel (age + 1) previousDiff

/-- findBreakevenAge from the source: scans the overlapping age range of
the two cumulative series for the first sign change of their difference
and linearly interpolates the crossover age; null (none) when no
crossover exists. -/
def findBreakevenAge (s1 s2 : List CumulativeBenefit) : Option ℚ :=
  let minAge := max (headAge s1) (headAge s2)
  let maxAge := min (lastAge s1) (lastAge s2)
  breakevenLoop s1 s2 minAge (maxAge - minAge + 1).toNat minAge 0

/-- Per-age difference of the two series' comparison values (0 for a
missing row); the quantity whose sign changes the claim talks about. -/
def diffAt (s1 s2 : List CumulativeBenefit) (age : ℤ) : ℚ :=
  (findAtAge s1 age).elim 0 breakevenValue -
    (findAtAge s2 age).elim 0 breakevenValue

/-- Scan formalizing the claim's description: walk the ages upward and at
the first pair of consecutive ages whose difference changes sign
(previous × current strictly negative) return
previousAge + |previousDiff / (diff − previousDiff)|; none when the range
is exhausted without a sign change. The fuel counts the ages left, the
integer argument is the current age. -/
def breakevenSpecScan (d : ℤ → ℚ) : ℕ → ℤ → Option ℚ
  | 0, _ => none
  | n + 1, age =>
    if d (age - 1) * d age < 0 then
      some (((age : ℚ) - 1) + |d (age - 1) / (d age - d (age - 1))|)
    else breakevenSpecScan d n (age + 1)

/-- Modelled from the claim's words: scan the overlapping age range
[max of the two minimum ages, min of the two maximum ages] for the first
sign change of consecutive per-age differences and interpolate; none when
no sign change occurs or the overlap is empty. To be compared with
findBreakevenAge, the function from the source. -/
def findBreakevenAgeSpec (s1 s2 : List CumulativeBenefit) : Option ℚ :=
  let minAge := max (headAge s1) (headAge s2)
  let maxAge := min (lastAge s1) (lastAge s2)
  if maxAge < minAge then none
  else breakevenSpecScan (diffAt s1 s2) (maxAge - minAge).toNat (minAge + 1)

example : calculateFRA 1960 = ⟨67, 0⟩ := by decide

/-- C2: calculateEarlyReductionPercentage returns 0 at or after FRA,
5/9 of 1% per month for the first 36 months before FRA, and 5/12 of 1%
per month beyond that, negated; for FRA 67 and claiming age 62 the
reduction is 30% and calculateBenefit(3000, 1960-01-01, 62) yields a
monthly benefit of 2100. -/
theorem calculateEarlyReductionPercentage_spec :
    (∀ (fra : FRA) (claimingAge : ℚ),
      calculateEarlyReductionPercentage claimingAge fra =
        if fraToMonths fra - claimingAge * 12 ≤ 0 then 0
        else if fraToMonths fra - claimingAge * 12 ≤ 36 then
          -((fraToMonths fra - claimingAge * 12) * ((5 / 9) / 100))
        else
          -(36 * ((5 / 9) / 100) +
            (fraToMonths fra - claimingAge * 12 - 36) * ((5 / 12) / 100))) ∧
    calculateEarlyReductionPercentage 62 ⟨67, 0⟩ = -(30 / 100) ∧
    (calculateBenefit 3000 1960 62).map BenefitCalculation.monthlyBenefit
      = some 2100 := by
  refine ⟨fun fra claimingAge => ?_, ?_, ?_⟩
  · simp only [calculateEarlyReductionPercentage,
      EARLY_REDUCTION_RATE_36, EARLY_REDUCTION_RATE_BEYOND]
  · norm_num [calculateEarlyReductionPercentage, fraToMonths,
      EARLY_REDUCTION_RATE_36, EARLY_REDUCTION_RATE_BEYOND]
  · norm_num [calculateBenefit, calculateFRA, MIN_CLAIMING_AGE,
      MAX_CLAIMING_AGE, calculateEarlyReductionPercentage, fraToMonths,
      EARLY_REDUCTION_RATE_36, EARLY_REDUCTION_RATE_BEYOND]

/-- C3: calculateDelayedCreditPercentage returns 0 at or before FRA and
otherwise 2/3 of 1% per effective month after FRA, the effective months
capped at the months between (decimal) FRA age and age 70; for FRA 67 and
claiming age 70 the credit is 24% and calculateBenefit(3000, 1960-01-01, 70)
yields a monthly benefit of 3720. -/
theorem calculateDelayedCreditPercentage_spec :
    (∀ (fra : FRA) (claimingAge : ℚ),
      calculateDelayedCreditPercentage claimingAge fra =
        if claimingAge * 12 - fraToMonths fra ≤ 0 then 0
        else
          min (claimingAge * 12 - fraToMonths fra)
              ((70 - fraToMonths fra / 12) * 12) * ((2 / 3) / 100)) ∧
    calculateDelayedCreditPercentage 70 ⟨67, 0⟩ = 24 / 100 ∧
    (calculateBenefit 3000 1960 70).map BenefitCalculation.monthlyBenefit
      = some 3720 := by
  refine ⟨fun fra claimingAge => ?_, ?_, ?_⟩
  · simp only [calculateDelayedCreditPercentage,
      DELAYED_CREDIT_RATE, MAX_CLAIMING_AGE]
  · norm_num [calculateDelayedCreditPercentage, fraToMonths,
      DELAYED_CREDIT_RATE, MAX_CLAIMING_AGE]
  · norm_num [calculateBenefit, calculateFRA, MIN_CLAIMING_AGE,
      MAX_CLAIMING_AGE, calculateDelayedCreditPercentage, fraToMonths,
      DELAYED_CREDIT_RATE]

/-- C5: calculateBenefit fails (returns none, modelling the thrown
validation error) exactly when the claiming age lies outside [62, 70],
and every successful result satisfies annualBenefit = monthlyBenefit × 12. -/
theorem calculateBenefit_validation (baseAmount : ℚ) (birthYear : ℤ)
    (claimingAge : ℚ) :
    (calculateBenefit baseAmount birthYear claimingAge = none ↔
      claimingAge < 62 ∨ claimingAge > 70) ∧
    ∀ result, calculateBenefit baseAmount birthYear claimingAge = some result →
      result.annualBenefit = result.monthlyBenefit * 12 := by
  constructor
  · unfold calculateBenefit MIN_CLAIMING_AGE MAX_CLAIMING_AGE
    split
    · simp only [true_iff]
      assumption
    · rename_i hrange
      dsimp only
      constructor
      · intro h
        exfalso
        revert h
        split <;> [simp; split <;> simp]
      · intro h
        exact absurd h hrange
  · intro result hresult
    unfold calculateBenefit at hresult
    split at hresult
    · exact absurd hresult (by simp)
    · dsimp only at hresult
      split at hresult <;> [skip; split at hresult] <;>
        · simp only [Option.some.injEq] at hresult
          subst hresult
          ring

/-- C5 witness: claiming age 61 is rejected, and the successful result at
claiming age 65 (monthly 2600) satisfies the annual = 12 × monthly
invariant. -/
theorem calculateBenefit_validation_witness :
    calculateBenefit 3000 1960 61 = none ∧
    BenefitCalculation.annualBenefit ⟨2600, 31200, -40 / 3, ⟨67, 0⟩⟩ =
      BenefitCalculation.monthlyBenefit ⟨2600, 31200, -40 / 3, ⟨67, 0⟩⟩ * 12 := by
  constructor
  · exact (calculateBenefit_validation 3000 1960 61).1.mpr (by norm_num)
  · refine (calculateBenefit_validation 3000 1960 65).2 _ ?_
    norm_num [calculateBenefit, calculateFRA, MIN_CLAIMING_AGE,
      MAX_CLAIMING_AGE, calculateEarlyReductionPercentage, fraToMonths,
      EARLY_REDUCTION_RATE_36, EARLY_REDUCTION_RATE_BEYOND]

/-- C6: for a spouse claiming age in [62, 70], calculateSpousalBenefit
succeeds; the spousal component is half the partner's base, early-reduced
exactly when the spouse claims before their FRA (never credited for
delay); the monthly benefit is the maximum of own and spousal components,
and the source is "own" exactly when the own component is at least the
spousal one (ties select "own"). -/
theorem calculateSpousalBenefit_spec (ownBaseAmount partnerBaseAmount : ℚ)
    (spouseBirthYear : ℤ) (spouseClaimingAge : ℚ)
    (h1 : 62 ≤ spouseClaimingAge) (h2 : spouseClaimingAge ≤ 70) :
    (calculateSpousalBenefit ownBaseAmount partnerBaseAmount
        spouseBirthYear spouseClaimingAge).isSome = true ∧
    ∀ r, calculateSpousalBenefit ownBaseAmount partnerBaseAmount
        spouseBirthYear spouseClaimingAge = some r →
      r.spousalBenefit =
        (if spouseClaimingAge <
            (calculateFRA spouseBirthYear).years +
              ((calculateFRA spouseBirthYear).months : ℚ) / 12 then
          partnerBaseAmount * (1 / 2) *
            (1 + calculateEarlyReductionPercentage spouseClaimingAge
              (calculateFRA spouseBirthYear))
        else partnerBaseAmount * (1 / 2)) ∧
      r.monthlyBenefit = max r.ownBenefit r.spousalBenefit ∧
      (r.source = BenefitSource.own ↔ r.spousalBenefit ≤ r.ownBenefit) := by
  have hsome : (calculateBenefit ownBaseAmount spouseBirthYear
      spouseClaimingAge).isSome = true := by
    rcases h : calculateBenefit ownBaseAmount spouseBirthYear spouseClaimingAge
      with _ | r
    · rw [(calculateBenefit_validation ownBaseAmount spouseBirthYear
        spouseClaimingAge).1] at h
      rcases h with h | h <;> linarith
    · rfl
  rcases Option.isSome_iff_exists.mp hsome with ⟨own, hown⟩
  constructor
  · simp [calculateSpousalBenefit, hown]
  · intro r hr
    simp only [calculateSpousalBenefit, hown, Option.some.injEq] at hr
    subst hr
    refine ⟨?_, rfl, ?_⟩
    · simp only [SPOUSAL_BENEFIT_RATE]
    · constructor
      · intro hsrc
        by_contra hlt
        simp only [not_le] at hlt
        simp only [ge_iff_le, if_neg (not_le.mpr hlt)] at hsrc
        exact absurd hsrc (by simp)
      · intro hle
        simp [ge_iff_le, hle]

/-- C6 witness: a spouse with own base 1500 and partner base 3000 claiming
at their FRA of 67 gets a defined result. -/
theorem calculateSpousalBenefit_spec_witness :
    (calculateSpousalBenefit 1500 3000 1960 67).isSome = true :=
  (calculateSpousalBenefit_spec 1500 3000 1960 67 (by norm_num)
    (by norm_num)).1

/-- Row count of projectBenefits: the number of integer ages between
ceil(claimingAge) and endAge. -/
theorem projectBenefits_length (startingBenefit claimingAge endAge colaRate
    inflationRate : ℚ) (birthYear : ℤ) :
    (projectBenefits startingBenefit claimingAge endAge colaRate birthYear
        inflationRate).length = (⌊endAge⌋ - ⌈claimingAge⌉ + 1).toNat := by
  simp only [projectBenefits, List.length_map, List.length_range]

/-- Closed form of the k-th row of projectBenefits. -/
theorem projectBenefits_get (startingBenefit claimingAge endAge colaRate
    inflationRate : ℚ) (birthYear : ℤ) (k : ℕ)
    (hk : k < (projectBenefits startingBenefit claimingAge endAge colaRate
      birthYear inflationRate).length) :
    (projectBenefits startingBenefit claimingAge endAge colaRate birthYear
        inflationRate).get ⟨k, hk⟩ =
      { age := ⌈claimingAge⌉ + k
        year := birthYear + (⌈claimingAge⌉ + k)
        monthlyBenefit := startingBenefit * (1 + colaRate / 100) ^ k
        annualBenefit := startingBenefit * (1 + colaRate / 100) ^ k * 12
        colaAdjusted := startingBenefit * (1 + colaRate / 100) ^ k
        inflationAdjusted :=
          startingBenefit * (1 + (colaRate - inflationRate) / 100) ^ k } := by
  simp only [projectBenefits, List.get_eq_getElem, List.getElem_map,
    List.getElem_range]

/-- C4: projectBenefits produces one row per integer age from
ceil(claimingAge) to endAge inclusive, ascending; row k carries
monthlyBenefit = colaAdjusted = startingBenefit × (1 + colaRate/100)^k,
annualBenefit twelve times that, and inflationAdjusted =
startingBenefit × (1 + (colaRate − inflationRate)/100)^k; in particular
row 0 equals the starting benefit with no COLA applied. -/
theorem projectBenefits_spec (startingBenefit claimingAge endAge colaRate
    inflationRate : ℚ) (birthYear : ℤ) (h : claimingAge ≤ endAge) :
    (projectBenefits startingBenefit claimingAge endAge colaRate birthYear
        inflationRate).length = (⌊endAge⌋ - ⌈claimingAge⌉ + 1).toNat ∧
    ∀ (k : ℕ) (hk : k < (projectBenefits startingBenefit claimingAge endAge
        colaRate birthYear inflationRate).length),
      ((projectBenefits startingBenefit claimingAge endAge colaRate birthYear
          inflationRate).get ⟨k, hk⟩).age = ⌈claimingAge⌉ + k ∧
      ((projectBenefits startingBenefit claimingAge endAge colaRate birthYear
          inflationRate).get ⟨k, hk⟩).year = birthYear + ⌈claimingAge⌉ + k ∧
      ((projectBenefits startingBenefit claimingAge endAge colaRate birthYear
          inflationRate).get ⟨k, hk⟩).monthlyBenefit =
        startingBenefit * (1 + colaRate / 100) ^ k ∧
      ((projectBenefits startingBenefit claimingAge endAge colaRate birthYear
          inflationRate).get ⟨k, hk⟩).colaAdjusted =
        startingBenefit * (1 + colaRate / 100) ^ k ∧
      ((projectBenefits startingBenefit claimingAge endAge colaRate birthYear
          inflationRate).get ⟨k, hk⟩).annualBenefit =
        startingBenefit * (1 + colaRate / 100) ^ k * 12 ∧
      ((projectBenefits startingBenefit claimingAge endAge colaRate birthYear
          inflationRate).get ⟨k, hk⟩).inflationAdjusted =
        startingBenefit * (1 + (colaRate - inflationRate) / 100) ^ k := by
  refine ⟨projectBenefits_length startingBenefit claimingAge endAge colaRate
    inflationRate birthYear, fun k hk => ?_⟩
  rw [projectBenefits_get startingBenefit claimingAge endAge colaRate
    inflationRate birthYear k hk]
  refine ⟨rfl, by ring, rfl, rfl, rfl, rfl⟩

/-- C4 witness: projectBenefits(3000, 67, 69, 50, 1960, 0) has three rows
and its first row pays exactly the starting benefit 3000. -/
theorem projectBenefits_spec_witness :
    (projectBenefits 3000 67 69 50 1960 0).length = 3 ∧
    ((projectBenefits 3000 67 69 50 1960 0).get
      ⟨0, by rw [projectBenefits_length]; norm_num⟩).monthlyBenefit = 3000 := by
  have h := projectBenefits_spec 3000 67 69 50 0 1960 (by norm_num)
  constructor
  · rw [h.1]
    norm_num
    rfl
  · rw [(h.2 0 (by rw [projectBenefits_length]; norm_num)).2.2.1]
    norm_num

/-- C8: applyInflation keeps the length and every field of every row
except inflationAdjusted, which becomes colaAdjusted discounted by
compound inflation over the years elapsed from the base year. -/
theorem applyInflation_spec (benefits : List YearlyBenefit)
    (inflationRate : ℚ) (baseYear : ℤ) :
    (applyInflation benefits inflationRate baseYear).length =
      benefits.length ∧
    ∀ (k : ℕ) (hk : k < (applyInflation benefits inflationRate
        baseYear).length) (hk2 : k < benefits.length),
      (applyInflation benefits inflationRate baseYear).get ⟨k, hk⟩ =
        { benefits.get ⟨k, hk2⟩ with
          inflationAdjusted := (benefits.get ⟨k, hk2⟩).colaAdjusted /
            (1 + inflationRate / 100) ^
              ((benefits.get ⟨k, hk2⟩).year - baseYear) } := by
  refine ⟨by simp only [applyInflation, List.length_map], fun k hk hk2 => ?_⟩
  simp only [applyInflation, List.get_eq_getElem, List.getElem_map]

/-- C8 witness: a one-row list with colaAdjusted 3075 in year 2028,
discounted at 100% inflation from base year 2027, keeps all fields except
inflationAdjusted, which becomes 3075/2. -/
theorem applyInflation_spec_witness :
    (applyInflation [⟨68, 2028, 3075, 36900, 3075, 3075, none, none, none⟩]
        100 2027).get
      ⟨0, by simp only [applyInflation, List.length_map]; norm_num⟩ =
    ⟨68, 2028, 3075, 36900, 3075, 3075 / 2, none, none, none⟩ := by
  rw [(applyInflation_spec
    [⟨68, 2028, 3075, 36900, 3075, 3075, none, none, none⟩] 100 2027).2 0
    (by simp only [applyInflation, List.length_map]; norm_num) (by norm_num)]
  norm_num
/-- Row count of the accumulation loop. -/
theorem cumulativeGo_length (benefits : List YearlyBenefit) (t a : ℚ) :
    (cumulativeGo benefits t a).length = benefits.length := by
  induction benefits generalizing t a with
  | nil => rfl
  | cons b rest ih => simp [cumulativeGo, ih]

/-- Closed form of the i-th row of the accumulation loop: each running
total is the start value plus the sum over the first i+1 input rows. -/
theorem cumulativeGo_get (benefits : List YearlyBenefit) (t a : ℚ) (i : ℕ)
    (h : i < (cumulativeGo benefits t a).length) (h2 : i < benefits.length) :
    ((cumulativeGo benefits t a).get ⟨i, h⟩).age =
      (benefits.get ⟨i, h2⟩).age ∧
    ((cumulativeGo benefits t a).get ⟨i, h⟩).year =
      (benefits.get ⟨i, h2⟩).year ∧
    ((cumulativeGo benefits t a).get ⟨i, h⟩).cumulative =
      t + ((benefits.take (i + 1)).map YearlyBenefit.annualBenefit).sum ∧
    ((cumulativeGo benefits t a).get ⟨i, h⟩).cumulativeAdjusted =
      a + ((benefits.take (i + 1)).map
        (fun b => b.inflationAdjusted * 12)).sum := by
  induction benefits generalizing t a i with
  | nil => simp at h2
  | cons b rest ih =>
    cases i with
    | zero => simp [cumulativeGo]
    | succ j =>
      have h' : j < (cumulativeGo rest (t + b.annualBenefit)
          (a + b.inflationAdjusted * 12)).length := by
        rw [cumulativeGo_length]
        simpa using h2
      have h2' : j < rest.length := by simpa using h2
      have := ih (t + b.annualBenefit) (a + b.inflationAdjusted * 12) j h' h2'
      simp only [cumulativeGo, List.get_eq_getElem, List.getElem_cons_succ,
        List.take_succ_cons, List.map_cons, List.sum_cons] at this ⊢
      refine ⟨this.1, this.2.1, ?_, ?_⟩
      · rw [this.2.2.1]
        ring
      · rw [this.2.2.2]
        ring

/-- Row count of calculateCumulativeBenefits. -/
theorem calculateCumulativeBenefits_length (benefits : List YearlyBenefit)
    (useTodaysDollars : Bool) :
    (calculateCumulativeBenefits benefits useTodaysDollars).length =
      benefits.length :=
  cumulativeGo_length benefits 0 0

/-- Closed form of the i-th row of calculateCumulativeBenefits. -/
theorem calculateCumulativeBenefits_get (benefits : List YearlyBenefit)
    (useTodaysDollars : Bool) (i : ℕ)
    (h : i < (calculateCumulativeBenefits benefits useTodaysDollars).length)
    (h2 : i < benefits.length) :
    ((calculateCumulativeBenefits benefits useTodaysDollars).get
        ⟨i, h⟩).age = (benefits.get ⟨i, h2⟩).age ∧
    ((calculateCumulativeBenefits benefits useTodaysDollars).get
        ⟨i, h⟩).year = (benefits.get ⟨i, h2⟩).year ∧
    ((calculateCumulativeBenefits benefits useTodaysDollars).get
        ⟨i, h⟩).cumulative =
      0 + ((benefits.take (i + 1)).map YearlyBenefit.annualBenefit).sum ∧
    ((calculateCumulativeBenefits benefits useTodaysDollars).get
        ⟨i, h⟩).cumulativeAdjusted =
      0 + ((benefits.take (i + 1)).map
        (fun b => b.inflationAdjusted * 12)).sum :=
  cumulativeGo_get benefits 0 0 i h h2

/-- C7: calculateCumulativeBenefits yields one output row per input row in
the same age order, with cumulative the running sum of annualBenefit
(first row equal to the first annualBenefit, each later row the previous
row plus the current annualBenefit), cumulativeAdjusted the analogous
running sum of inflationAdjusted × 12, and the cumulative series
non-decreasing whenever every annualBenefit is non-negative. -/
theorem calculateCumulativeBenefits_spec (benefits : List YearlyBenefit)
    (useTodaysDollars : Bool) :
    (calculateCumulativeBenefits benefits useTodaysDollars).length =
      benefits.length ∧
    (∀ (i : ℕ) (h : i < (calculateCumulativeBenefits benefits
        useTodaysDollars).length) (h2 : i < benefits.length),
      ((calculateCumulativeBenefits benefits useTodaysDollars).get
        ⟨i, h⟩).age = (benefits.get ⟨i, h2⟩).age) ∧
    (∀ (h : 0 < (calculateCumulativeBenefits benefits
        useTodaysDollars).length) (h2 : 0 < benefits.length),
      ((calculateCumulativeBenefits benefits useTodaysDollars).get
        ⟨0, h⟩).cumulative = (benefits.get ⟨0, h2⟩).annualBenefit ∧
      ((calculateCumulativeBenefits benefits useTodaysDollars).get
        ⟨0, h⟩).cumulativeAdjusted =
          (benefits.get ⟨0, h2⟩).inflationAdjusted * 12) ∧
    (∀ (i : ℕ) (h : i + 1 < (calculateCumulativeBenefits benefits
        useTodaysDollars).length)
      (hp : i < (calculateCumulativeBenefits benefits
        useTodaysDollars).length) (h2 : i + 1 < benefits.length),
      ((calculateCumulativeBenefits benefits useTodaysDollars).get
        ⟨i + 1, h⟩).cumulative =
        ((calculateCumulativeBenefits benefits useTodaysDollars).get
          ⟨i, hp⟩).cumulative + (benefits.get ⟨i + 1, h2⟩).annualBenefit ∧
      ((calculateCumulativeBenefits benefits useTodaysDollars).get
        ⟨i + 1, h⟩).cumulativeAdjusted =
        ((calculateCumulativeBenefits benefits useTodaysDollars).get
          ⟨i, hp⟩).cumulativeAdjusted +
          (benefits.get ⟨i + 1, h2⟩).inflationAdjusted * 12) ∧
    ((∀ b ∈ benefits, 0 ≤ b.annualBenefit) →
      ∀ (i : ℕ) (h : i + 1 < (calculateCumulativeBenefits benefits
        useTodaysDollars).length)
      (hp : i < (calculateCumulativeBenefits benefits
        useTodaysDollars).length),
      ((calculateCumulativeBenefits benefits useTodaysDollars).get
        ⟨i, hp⟩).cumulative ≤
        ((calculateCumulativeBenefits benefits useTodaysDollars).get
          ⟨i + 1, h⟩).cumulative) := by
  have hstep : ∀ (i : ℕ)
      (h : i + 1 < (calculateCumulativeBenefits benefits
        useTodaysDollars).length)
      (hp : i < (calculateCumulativeBenefits benefits
        useTodaysDollars).length) (h2 : i + 1 < benefits.length),
      ((calculateCumulativeBenefits benefits useTodaysDollars).get
        ⟨i + 1, h⟩).cumulative =
        ((calculateCumulativeBenefits benefits useTodaysDollars).get
          ⟨i, hp⟩).cumulative + (benefits.get ⟨i + 1, h2⟩).annualBenefit ∧
      ((calculateCumulativeBenefits benefits useTodaysDollars).get
        ⟨i + 1, h⟩).cumulativeAdjusted =
        ((calculateCumulativeBenefits benefits useTodaysDollars).get
          ⟨i, hp⟩).cumulativeAdjusted +
          (benefits.get ⟨i + 1, h2⟩).inflationAdjusted * 12 := by
    intro i h hp h2
    have hi : i < benefits.length := by omega
    have ha := calculateCumulativeBenefits_get benefits useTodaysDollars
      (i + 1) h h2
    have hb := calculateCumulativeBenefits_get benefits useTodaysDollars
      i hp hi
    constructor
    · rw [ha.2.2.1, hb.2.2.1, List.map_take, List.map_take,
        List.sum_take_succ _ (i + 1) (by simpa using h2)]
      simp only [List.getElem_map, List.get_eq_getElem]
      ring
    · rw [ha.2.2.2, hb.2.2.2, List.map_take, List.map_take,
        List.sum_take_succ _ (i + 1) (by simpa using h2)]
      simp only [List.getElem_map, List.get_eq_getElem]
      ring
  refine ⟨calculateCumulativeBenefits_length benefits useTodaysDollars,
    ?_, ?_, hstep, ?_⟩
  · intro i h h2
    exact (calculateCumulativeBenefits_get benefits useTodaysDollars
      i h h2).1
  · intro h h2
    have h0 := calculateCumulativeBenefits_get benefits useTodaysDollars
      0 h h2
    constructor
    · rw [h0.2.2.1, List.map_take, List.sum_take_succ _ 0 (by simpa using h2)]
      simp only [List.getElem_map, List.get_eq_getElem]
      simp
    · rw [h0.2.2.2, List.map_take, List.sum_take_succ _ 0 (by simpa using h2)]
      simp only [List.getElem_map, List.get_eq_getElem]
      simp
  · intro hnn i h hp
    have h2 : i + 1 < benefits.length := by
      rw [← calculateCumulativeBenefits_length benefits useTodaysDollars]
      exact h
    have hmem : benefits.get ⟨i + 1, h2⟩ ∈ benefits := List.get_mem _ _ h2
    linarith [(hstep i h hp h2).1, hnn _ hmem]

/-- C7 witness: for a two-row input with annual benefits 36000 and 36900
and inflation-adjusted monthlies 3000 and 2985, the output has two rows,
the first cumulative is 36000 and the second is 36000 + 36900. -/
theorem calculateCumulativeBenefits_spec_witness :
    (calculateCumulativeBenefits
      [⟨67, 2027, 3000, 36000, 3000, 3000, none, none, none⟩,
       ⟨68, 2028, 3075, 36900, 3075, 2985, none, none, none⟩] true).length
      = 2 ∧
    ((calculateCumulativeBenefits
      [⟨67, 2027, 3000, 36000, 3000, 3000, none, none, none⟩,
       ⟨68, 2028, 3075, 36900, 3075, 2985, none, none, none⟩] true).get
      ⟨0, by rw [calculateCumulativeBenefits_length]; norm_num⟩).cumulative
      = 36000 ∧
    ((calculateCumulativeBenefits
      [⟨67, 2027, 3000, 36000, 3000, 3000, none, none, none⟩,
       ⟨68, 2028, 3075, 36900, 3075, 2985, none, none, none⟩] true).get
      ⟨1, by rw [calculateCumulativeBenefits_length]; norm_num⟩).cumulative
      = 36000 + 36900 := by
  have h := calculateCumulativeBenefits_spec
    [⟨67, 2027, 3000, 36000, 3000, 3000, none, none, none⟩,
     ⟨68, 2028, 3075, 36900, 3075, 2985, none, none, none⟩] true
  have h0 := (h.2.2.1 (by rw [calculateCumulativeBenefits_length]; norm_num)
    (by norm_num)).1
  have h1 := (h.2.2.2.1 0
    (by rw [calculateCumulativeBenefits_length]; norm_num)
    (by rw [calculateCumulativeBenefits_length]; norm_num) (by norm_num)).1
  refine ⟨by rw [h.1]; rfl, ?_, ?_⟩
  · rw [h0]
    rfl
  · rw [h1, h0]
    rfl

/-- C9: the useTodaysDollars flag of calculateCumulativeBenefits is read
nowhere, so the result is the same for both flag values. -/
theorem calculateCumulativeBenefits_flag_irrelevant
    (benefits : List YearlyBenefit) :
    calculateCumulativeBenefits benefits true =
      calculateCumulativeBenefits benefits false := rfl

example :
    calculateEarlyReductionPercentage 62 ⟨67, 0⟩ = -(30 / 100 : ℚ) := by
  norm_num [calculateEarlyReductionPercentage, fraToMonths,
    EARLY_REDUCTION_RATE_36, EARLY_REDUCTION_RATE_BEYOND]

example :
    calculateDelayedCreditPercentage 70 ⟨67, 0⟩ = (24 / 100 : ℚ) := by
  norm_num [calculateDelayedCreditPercentage, fraToMonths,
    DELAYED_CREDIT_RATE, MAX_CLAIMING_AGE]

example :
    (calculateBenefit 3000 1960 62).map BenefitCalculation.monthlyBenefit
      = some 2100 := by
  norm_num [calculateBenefit, calculateFRA, MIN_CLAIMING_AGE, MAX_CLAIMING_AGE,
    calculateEarlyReductionPercentage, fraToMonths,
    EARLY_REDUCTION_RATE_36, EARLY_REDUCTION_RATE_BEYOND]

example :
    (calculateBenefit 3000 1960 70).map BenefitCalculation.monthlyBenefit
      = some 3720 := by
  norm_num [calculateBenefit, calculateFRA, MIN_CLAIMING_AGE, MAX_CLAIMING_AGE,
    calculateDelayedCreditPercentage, fraToMonths, DELAYED_CREDIT_RATE]

/-- Every FRA produced by calculateFRA lies between 66 years (792 months)
and 67 years (804 months). -/
theorem fraToMonths_calculateFRA_bounds (birthYear : ℤ) :
    792 ≤ fraToMonths (calculateFRA birthYear) ∧
      fraToMonths (calculateFRA birthYear) ≤ 804 := by
  unfold calculateFRA FRA_TABLE
  split_ifs <;> norm_num [fraToMonths, Option.getD]

/-- The early reduction is never positive. -/
theorem calculateEarlyReductionPercentage_nonpos (claimingAge : ℚ)
    (fra : FRA) : calculateEarlyReductionPercentage claimingAge fra ≤ 0 := by
  unfold calculateEarlyReductionPercentage EARLY_REDUCTION_RATE_36
    EARLY_REDUCTION_RATE_BEYOND
  dsimp only
  split_ifs with h1 h2
  · exact le_refl 0
  · nlinarith
  · nlinarith

/-- The early reduction is monotone non-decreasing in the claiming age. -/
theorem calculateEarlyReductionPercentage_mono (fra : FRA) (a1 a2 : ℚ)
    (h12 : a1 ≤ a2) :
    calculateEarlyReductionPercentage a1 fra ≤
      calculateEarlyReductionPercentage a2 fra := by
  unfold calculateEarlyReductionPercentage EARLY_REDUCTION_RATE_36
    EARLY_REDUCTION_RATE_BEYOND
  dsimp only
  split_ifs <;> linarith

/-- The delayed credit is never negative for an FRA from calculateFRA. -/
theorem calculateDelayedCreditPercentage_nonneg (birthYear : ℤ)
    (claimingAge : ℚ) :
    0 ≤ calculateDelayedCreditPercentage claimingAge
      (calculateFRA birthYear) := by
  have hb := fraToMonths_calculateFRA_bounds birthYear
  unfold calculateDelayedCreditPercentage
  dsimp only
  split_ifs with h
  · exact le_refl 0
  · push_neg at h
    have hcap : (0 : ℚ) ≤
        (MAX_CLAIMING_AGE - fraToMonths (calculateFRA birthYear) / 12) * 12 := by
      unfold MAX_CLAIMING_AGE
      nlinarith [hb.2]
    exact mul_nonneg (le_min (le_of_lt h) hcap)
      (by norm_num [DELAYED_CREDIT_RATE])

/-- The delayed credit is monotone non-decreasing in the claiming age for
an FRA from calculateFRA. -/
theorem calculateDelayedCreditPercentage_mono (birthYear : ℤ) (a1 a2 : ℚ)
    (h12 : a1 ≤ a2) :
    calculateDelayedCreditPercentage a1 (calculateFRA birthYear) ≤
      calculateDelayedCreditPercentage a2 (calculateFRA birthYear) := by
  have hb := fraToMonths_calculateFRA_bounds birthYear
  have hcap : (0 : ℚ) ≤
      (MAX_CLAIMING_AGE - fraToMonths (calculateFRA birthYear) / 12) * 12 := by
    unfold MAX_CLAIMING_AGE
    nlinarith [hb.2]
  unfold calculateDelayedCreditPercentage
  dsimp only
  split_ifs with h1 h2 h3
  · exact le_refl 0
  · push_neg at h2
    exact mul_nonneg (le_min (le_of_lt h2) hcap)
      (by norm_num [DELAYED_CREDIT_RATE])
  · exact absurd h3 (by push_neg; linarith)
  · refine mul_le_mul_of_nonneg_right (min_le_min (by linarith) (le_refl _))
      (by norm_num [DELAYED_CREDIT_RATE])

/-- Closed form of the monthly benefit: because the early reduction
vanishes at or after FRA and the delayed credit vanishes at or before
FRA, every successful calculateBenefit result pays
baseAmount × (1 + reduction + credit). -/
theorem calculateBenefit_monthly (baseAmount : ℚ) (birthYear : ℤ)
    (claimingAge : ℚ) (r : BenefitCalculation)
    (hr : calculateBenefit baseAmount birthYear claimingAge = some r) :
    r.monthlyBenefit = baseAmount *
      (1 + calculateEarlyReductionPercentage claimingAge
          (calculateFRA birthYear) +
        calculateDelayedCreditPercentage claimingAge
          (calculateFRA birthYear)) := by
  have hfra : fraToMonths (calculateFRA birthYear) =
      12 * (((calculateFRA birthYear).years : ℚ) +
        ((calculateFRA birthYear).months : ℚ) / 12) := by
    unfold fraToMonths
    ring
  unfold calculateBenefit at hr
  split at hr
  · exact absurd hr (by simp)
  · dsimp only at hr
    split at hr
    · rename_i hlt
      simp only [Option.some.injEq] at hr
      subst hr
      have hD : calculateDelayedCreditPercentage claimingAge
          (calculateFRA birthYear) = 0 := by
        unfold calculateDelayedCreditPercentage
        dsimp only
        rw [if_pos (by rw [hfra]; linarith)]
      rw [hD]
      ring
    · split at hr
      · rename_i hgt
        simp only [Option.some.injEq] at hr
        subst hr
        have hE : calculateEarlyReductionPercentage claimingAge
            (calculateFRA birthYear) = 0 := by
          unfold calculateEarlyReductionPercentage
          dsimp only
          rw [if_pos (by rw [hfra]; linarith)]
        rw [hE]
        ring
      · rename_i hnlt hngt
        simp only [Option.some.injEq] at hr
        subst hr
        have heq : claimingAge * 12 = fraToMonths (calculateFRA birthYear) := by
          rw [hfra]
          push_neg at hnlt hngt
          linarith [le_antisymm hnlt hngt]
        have hE : calculateEarlyReductionPercentage claimingAge
            (calculateFRA birthYear) = 0 := by
          unfold calculateEarlyReductionPercentage
          dsimp only
          rw [if_pos (by linarith)]
        have hD : calculateDelayedCreditPercentage claimingAge
            (calculateFRA birthYear) = 0 := by
          unfold calculateDelayedCreditPercentage
          dsimp only
          rw [if_pos (by linarith)]
        rw [hE, hD]
        ring

/-- C10: for a non-negative base amount and claiming ages a1 ≤ a2 both in
[62, 70], the monthly benefit at a1 never exceeds the monthly benefit at
a2: the benefit is monotone non-decreasing in the claiming age across the
early-reduction region, the FRA point and the delayed-credit region. -/
theorem calculateBenefit_monotone (baseAmount : ℚ) (birthYear : ℤ)
    (a1 a2 : ℚ) (hbase : 0 ≤ baseAmount) (h62 : 62 ≤ a1) (h12 : a1 ≤ a2)
    (h70 : a2 ≤ 70) :
    ∀ r1 r2, calculateBenefit baseAmount birthYear a1 = some r1 →
      calculateBenefit baseAmount birthYear a2 = some r2 →
      r1.monthlyBenefit ≤ r2.monthlyBenefit := by
  intro r1 r2 hr1 hr2
  rw [calculateBenefit_monthly baseAmount birthYear a1 r1 hr1,
    calculateBenefit_monthly baseAmount birthYear a2 r2 hr2]
  refine mul_le_mul_of_nonneg_left ?_ hbase
  have hE := calculateEarlyReductionPercentage_mono (calculateFRA birthYear)
    a1 a2 h12
  have hD := calculateDelayedCreditPercentage_mono birthYear a1 a2 h12
  linarith

/-- C10 witness: with base 3000 and birth year 1960, the monthly benefit
at claiming age 62 (2100) does not exceed the one at 70 (3720). -/
theorem calculateBenefit_monotone_witness :
    BenefitCalculation.monthlyBenefit ⟨2100, 25200, -30, ⟨67, 0⟩⟩ ≤
      BenefitCalculation.monthlyBenefit ⟨3720, 44640, 24, ⟨67, 0⟩⟩ := by
  refine calculateBenefit_monotone 3000 1960 62 70 (by norm_num)
    (by norm_num) (by norm_num) (by norm_num) _ _ ?_ ?_
  · norm_num [calculateBenefit, calculateFRA, MIN_CLAIMING_AGE,
      MAX_CLAIMING_AGE, calculateEarlyReductionPercentage, fraToMonths,
      EARLY_REDUCTION_RATE_36, EARLY_REDUCTION_RATE_BEYOND]
  · norm_num [calculateBenefit, calculateFRA, MIN_CLAIMING_AGE,
      MAX_CLAIMING_AGE, calculateDelayedCreditPercentage, fraToMonths,
      DELAYED_CREDIT_RATE]

/-- Once past the first age, the scanning loop of findBreakevenAge agrees
with the claim's scan whenever every remaining age is present in both
series and the carried difference is the previous age's difference. -/
theorem breakevenLoop_eq_scan (s1 s2 : List CumulativeBenefit)
    (minAge : ℤ) (n : ℕ) :
    ∀ (age : ℤ), minAge < age →
    (∀ a : ℤ, age ≤ a → a < age + n →
      (findAtAge s1 a).isSome = true ∧ (findAtAge s2 a).isSome = true) →
    breakevenLoop s1 s2 minAge n age (diffAt s1 s2 (age - 1)) =
      breakevenSpecScan (diffAt s1 s2) n age := by
  induction n with
  | zero =>
    intro age _ _
    rfl
  | succ n ih =>
    intro age hmin hfound
    have h0 := hfound age (le_refl age) (by omega)
    rcases Option.isSome_iff_exists.mp h0.1 with ⟨b1, hb1⟩
    rcases Option.isSome_iff_exists.mp h0.2 with ⟨b2, hb2⟩
    have hdiff : diffAt s1 s2 age = breakevenValue b1 - breakevenValue b2 := by
      simp [diffAt, hb1, hb2]
    simp only [breakevenLoop, breakevenSpecScan, hb1, hb2]
    rw [← hdiff]
    by_cases hc : diffAt s1 s2 (age - 1) * diffAt s1 s2 age < 0
    · rw [if_pos ⟨hmin, hc⟩, if_pos hc]
    · rw [if_neg (by intro hand; exact hc hand.2), if_neg hc]
      have hsh : age + 1 - 1 = age := by omega
      have := ih (age + 1) (by omega) (fun a ha1 ha2 =>
        hfound a (by omega) (by omega))
      rw [hsh] at this
      exact this

/-- C1: under the presence of a row for every age in the overlapping
range, findBreakevenAge computes exactly the claim's algorithm
(findBreakevenAgeSpec): ascending scan over [max of the minimum ages,
min of the maximum ages] of the per-age differences (netValue when
present, else cumulativeAdjusted), returning
previousAge + |previousDiff/(diff − previousDiff)| at the first strict
sign change and none otherwise; with an empty overlap it returns none
unconditionally. -/
theorem findBreakevenAge_spec (s1 s2 : List CumulativeBenefit)
    (hcomplete : ∀ a : ℤ, max (headAge s1) (headAge s2) ≤ a →
      a ≤ min (lastAge s1) (lastAge s2) →
      (findAtAge s1 a).isSome = true ∧ (findAtAge s2 a).isSome = true) :
    findBreakevenAge s1 s2 = findBreakevenAgeSpec s1 s2 ∧
    (min (lastAge s1) (lastAge s2) < max (headAge s1) (headAge s2) →
      findBreakevenAge s1 s2 = none) := by
  have hempty : min (lastAge s1) (lastAge s2) < max (headAge s1) (headAge s2) →
      findBreakevenAge s1 s2 = none := by
    intro hlt
    unfold findBreakevenAge
    dsimp only
    have h0 : (min (lastAge s1) (lastAge s2) -
        max (headAge s1) (headAge s2) + 1).toNat = 0 := by omega
    rw [h0]
    rfl
  refine ⟨?_, hempty⟩
  by_cases hover : min (lastAge s1) (lastAge s2) <
      max (headAge s1) (headAge s2)
  · rw [hempty hover]
    unfold findBreakevenAgeSpec
    dsimp only
    rw [if_pos hover]
  · push_neg at hover
    have h0 := hcomplete (max (headAge s1) (headAge s2)) (le_refl _) hover
    rcases Option.isSome_iff_exists.mp h0.1 with ⟨b1, hb1⟩
    rcases Option.isSome_iff_exists.mp h0.2 with ⟨b2, hb2⟩
    unfold findBreakevenAge findBreakevenAgeSpec
    dsimp only
    rw [if_neg (by omega)]
    have hfuel : (min (lastAge s1) (lastAge s2) -
        max (headAge s1) (headAge s2) + 1).toNat =
        (min (lastAge s1) (lastAge s2) -
          max (headAge s1) (headAge s2)).toNat + 1 := by omega
    rw [hfuel]
    simp only [breakevenLoop, hb1, hb2]
    rw [if_neg (by simp)]
    have hdiff : breakevenValue b1 - breakevenValue b2 =
        diffAt s1 s2 (max (headAge s1) (headAge s2) + 1 - 1) := by
      have hsh : max (headAge s1) (headAge s2) + 1 - 1 =
          max (headAge s1) (headAge s2) := by omega
      rw [hsh]
      simp [diffAt, hb1, hb2]
    rw [hdiff]
    exact breakevenLoop_eq_scan s1 s2 (max (headAge s1) (headAge s2))
      ((min (lastAge s1) (lastAge s2) -
        max (headAge s1) (headAge s2)).toNat)
      (max (headAge s1) (headAge s2) + 1) (by omega)
      (fun a ha1 ha2 => hcomplete a (by omega) (by omega))

/-- C1 witness: two complete two-row series over ages 62 and 63 with
differences 10 then −2 cross between 62 and 63, and findBreakevenAge
interpolates 62 + 10/12 = 62 + 5/6. -/
theorem findBreakevenAge_spec_witness :
    findBreakevenAge
      [⟨62, 2022, 10, 10, none, none, none, none⟩,
       ⟨63, 2023, 15, 5, none, none, none, none⟩]
      [⟨62, 2022, 0, 0, none, none, none, none⟩,
       ⟨63, 2023, 7, 7, none, none, none, none⟩] = some (62 + 5 / 6) := by
  have f162 : findAtAge [⟨62, 2022, 10, 10, none, none, none, none⟩,
      ⟨63, 2023, 15, 5, none, none, none, none⟩] 62 =
      some ⟨62, 2022, 10, 10, none, none, none, none⟩ := rfl
  have f163 : findAtAge [⟨62, 2022, 10, 10, none, none, none, none⟩,
      ⟨63, 2023, 15, 5, none, none, none, none⟩] 63 =
      some ⟨63, 2023, 15, 5, none, none, none, none⟩ := rfl
  have f262 : findAtAge [⟨62, 2022, 0, 0, none, none, none, none⟩,
      ⟨63, 2023, 7, 7, none, none, none, none⟩] 62 =
      some ⟨62, 2022, 0, 0, none, none, none, none⟩ := rfl
  have f263 : findAtAge [⟨62, 2022, 0, 0, none, none, none, none⟩,
      ⟨63, 2023, 7, 7, none, none, none, none⟩] 63 =
      some ⟨63, 2023, 7, 7, none, none, none, none⟩ := rfl
  have hd62 : diffAt [⟨62, 2022, 10, 10, none, none, none, none⟩,
      ⟨63, 2023, 15, 5, none, none, none, none⟩]
      [⟨62, 2022, 0, 0, none, none, none, none⟩,
       ⟨63, 2023, 7, 7, none, none, none, none⟩] 62 = 10 := by
    rw [diffAt, f162, f262]
    norm_num [breakevenValue]
  have hd63 : diffAt [⟨62, 2022, 10, 10, none, none, none, none⟩,
      ⟨63, 2023, 15, 5, none, none, none, none⟩]
      [⟨62, 2022, 0, 0, none, none, none, none⟩,
       ⟨63, 2023, 7, 7, none, none, none, none⟩] 63 = -2 := by
    rw [diffAt, f163, f263]
    norm_num [breakevenValue]
  have hc : ∀ a : ℤ,
      max (headAge [⟨62, 2022, 10, 10, none, none, none, none⟩,
        ⟨63, 2023, 15, 5, none, none, none, none⟩])
        (headAge [⟨62, 2022, 0, 0, none, none, none, none⟩,
          ⟨63, 2023, 7, 7, none, none, none, none⟩]) ≤ a →
      a ≤ min (lastAge [⟨62, 2022, 10, 10, none, none, none, none⟩,
        ⟨63, 2023, 15, 5, none, none, none, none⟩])
        (lastAge [⟨62, 2022, 0, 0, none, none, none, none⟩,
          ⟨63, 2023, 7, 7, none, none, none, none⟩]) →
      (findAtAge [⟨62, 2022, 10, 10, none, none, none, none⟩,
        ⟨63, 2023, 15, 5, none, none, none, none⟩] a).isSome = true ∧
      (findAtAge [⟨62, 2022, 0, 0, none, none, none, none⟩,
        ⟨63, 2023, 7, 7, none, none, none, none⟩] a).isSome = true := by
    intro a h1 h2
    simp only [headAge, lastAge, max_self, min_self] at h1 h2
    interval_cases a <;> constructor <;> rfl
  rw [(findBreakevenAge_spec
    [⟨62, 2022, 10, 10, none, none, none, none⟩,
     ⟨63, 2023, 15, 5, none, none, none, none⟩]
    [⟨62, 2022, 0, 0, none, none, none, none⟩,
     ⟨63, 2023, 7, 7, none, none, none, none⟩] hc).1]
  simp only [findBreakevenAgeSpec, headAge, lastAge, max_self, min_self]
  rw [if_neg (by norm_num)]
  have ht : ((63 : ℤ) - 62).toNat = 1 := rfl
  rw [ht]
  have ha : (62 : ℤ) + 1 = 63 := by norm_num
  rw [ha]
  simp only [breakevenSpecScan]
  have hb : (63 : ℤ) - 1 = 62 := by norm_num
  rw [hb, hd62, hd63, if_pos (by norm_num)]
  norm_num
  rw [abs_of_nonneg (by norm_num : (0 : ℚ) ≤ 5 / 6)]
  norm_num
